import Mathlib

/-!
Verification of the lsyiot_adapter_hub_sdk client library: a shallow
embedding of the two transport clients (XML-RPC and HTTP POST), their
result wrappers and their error classification, with theorems about the
response-normalization contract.

Modelling conventions:
* A parsed JSON document is a `Json` value; a raw response body is a
  `Body`: its text together with the outcome of `json.loads` on it
  (`Except String Json`, the error carrying the decode exception's text).
* Python exceptions are the `PyExc` type; the `except` clauses of the
  clients are modelled by ordered `isinstance` tests over the relevant
  part of Python's exception class hierarchy (`PyClass` / `isinstance`).
* Fallible Python attribute access (for instance `.get` on a value that
  is not a dict) is `Except PyExc`.
* The network call itself is external to the repository, so each client
  takes the transport's outcome (a delivered response or a raised
  exception) as an input.
-/

/-- A parsed JSON document (the values `json.loads` can produce, with
numbers restricted to integers, which is all the contract uses). -/
inductive Json where
  | null
  | bool (b : Bool)
  | num (n : Int)
  | str (s : String)
  | arr (elems : List Json)
  | obj (entries : List (String × Json))

/-- The Python type name of a JSON value, as `type(x).__name__` yields it. -/
def Json.pyTypeName : Json → String
  | .null => "NoneType"
  | .bool _ => "bool"
  | .num _ => "int"
  | .str _ => "str"
  | .arr _ => "list"
  | .obj _ => "dict"

/-- Whether the value is a JSON object (a Python dict). -/
def Json.isObj : Json → Bool
  | .obj _ => true
  | _ => false

/-- Python truthiness of a JSON value (`bool(x)`). -/
def Json.truthy : Json → Bool
  | .null => false
  | .bool b => b
  | .num n => n != 0
  | .str s => s != ""
  | .arr elems => !elems.isEmpty
  | .obj entries => !entries.isEmpty

/-- Python `x == n` for an integer literal `n`: numbers compare by value,
booleans compare as 0/1, every other type compares unequal. -/
def Json.pyEqNum : Json → Int → Bool
  | .num m, n => m == n
  | .bool b, n => (if b then (1 : Int) else 0) == n
  | _, _ => false

/-- Python `x == s` for a string literal `s`: only strings can be equal. -/
def Json.pyEqStr : Json → String → Bool
  | .str t, s => t == s
  | _, _ => false

mutual
/-- Python `repr()` of a JSON value (approximation: strings are rendered
between plain single quotes, without escape handling). -/
def Json.reprStr : Json → String
  | .null => "None"
  | .bool true => "True"
  | .bool false => "False"
  | .num n => toString n
  | .str s => "'" ++ s ++ "'"
  | .arr elems => "[" ++ Json.reprElems elems ++ "]"
  | .obj entries => "\x7b" ++ Json.reprEntries entries ++ "\x7d"

/-- Comma-separated `repr()`s of a list's elements. -/
def Json.reprElems : List Json → String
  | [] => ""
  | [x] => Json.reprStr x
  | x :: xs => Json.reprStr x ++ ", " ++ Json.reprElems xs

/-- Comma-separated `'key': repr(value)` renderings of a dict's entries. -/
def Json.reprEntries : List (String × Json) → String
  | [] => ""
  | [(k, v)] => "'" ++ k ++ "': " ++ Json.reprStr v
  | (k, v) :: kvs => "'" ++ k ++ "': " ++ Json.reprStr v ++ ", " ++ Json.reprEntries kvs
end

/-- Python `str()` of a JSON value: like `repr()` except that a string
renders as itself. -/
def Json.render : Json → String
  | .str s => s
  | j => Json.reprStr j

/-- The `AttributeError` message Python raises for `x.attr` when `x`'s
type has no such attribute. -/
def noAttrMsg (j : Json) (attr : String) : String :=
  "'" ++ j.pyTypeName ++ "' object has no attribute '" ++ attr ++ "'"

/-- The Python exceptions that can flow through the two clients. `fault`
and `protocolError` are `xmlrpc.client.Fault` / `.ProtocolError`;
`requestsTimeout`, `requestsConnectionError` and `requestException` are
the `requests` library's exceptions; `otherExc` stands for any further
exception, carrying its type name and `str()`. -/
inductive PyExc where
  | rpcError (message : Json) (code : Json) (data : Json)
  | apiError (message : Json) (code : Json) (data : Json)
  | fault (faultCode : Int) (faultString : String)
  | protocolError (url : String) (errcode : Int) (errmsg : String)
  | timeoutError (text : String)
  | connectionRefused (text : String)
  | remoteDisconnected (text : String)
  | osError (text : String)
  | jsonDecodeError (text : String)
  | attributeError (text : String)
  | requestsTimeout (text : String)
  | requestsConnectionError (text : String)
  | requestException (text : String)
  | otherExc (typeName : String) (text : String)

/-- The exception classes the clients' `except` clauses name. -/
inductive PyClass where
  | adapterHubRpcError
  | adapterHubApiError
  | xmlrpcFault
  | xmlrpcProtocolError
  | timeoutError
  | connectionRefusedError
  | remoteDisconnected
  | socketError
  | osError
  | jsonDecodeError
  | requestsTimeout
  | requestsConnectionError
  | requestException
  | pyException
  deriving DecidableEq

/-- Python `isinstance` restricted to the classes above, following the
real hierarchy: `TimeoutError`, `ConnectionRefusedError` and
`RemoteDisconnected` are `OSError`s; `socket.error` is an alias of
`OSError`; `json.JSONDecodeError` is a `ValueError`, not an `OSError`;
the `requests` exceptions derive from `RequestException`, itself an
`IOError` (= `OSError`); everything is an `Exception`. -/
def isinstance (e : PyExc) (c : PyClass) : Bool :=
  match c with
  | .pyException => true
  | .adapterHubRpcError =>
    match e with
    | .rpcError _ _ _ => true
    | _ => false
  | .adapterHubApiError =>
    match e with
    | .apiError _ _ _ => true
    | _ => false
  | .xmlrpcFault =>
    match e with
    | .fault _ _ => true
    | _ => false
  | .xmlrpcProtocolError =>
    match e with
    | .protocolError _ _ _ => true
    | _ => false
  | .timeoutError =>
    match e with
    | .timeoutError _ => true
    | _ => false
  | .connectionRefusedError =>
    match e with
    | .connectionRefused _ => true
    | _ => false
  | .remoteDisconnected =>
    match e with
    | .remoteDisconnected _ => true
    | _ => false
  | .socketError | .osError =>
    match e with
    | .timeoutError _ => true
    | .connectionRefused _ => true
    | .remoteDisconnected _ => true
    | .osError _ => true
    | .requestsTimeout _ => true
    | .requestsConnectionError _ => true
    | .requestException _ => true
    | _ => false
  | .jsonDecodeError =>
    match e with
    | .jsonDecodeError _ => true
    | _ => false
  | .requestsTimeout =>
    match e with
    | .requestsTimeout _ => true
    | _ => false
  | .requestsConnectionError =>
    match e with
    | .requestsConnectionError _ => true
    | _ => false
  | .requestException =>
    match e with
    | .requestsTimeout _ => true
    | .requestsConnectionError _ => true
    | .requestException _ => true
    | _ => false

/-- `type(e).__name__`. -/
def PyExc.pyTypeName : PyExc → String
  | .rpcError _ _ _ => "AdapterHubRpcError"
  | .apiError _ _ _ => "AdapterHubApiError"
  | .fault _ _ => "Fault"
  | .protocolError _ _ _ => "ProtocolError"
  | .timeoutError _ => "TimeoutError"
  | .connectionRefused _ => "ConnectionRefusedError"
  | .remoteDisconnected _ => "RemoteDisconnected"
  | .osError _ => "OSError"
  | .jsonDecodeError _ => "JSONDecodeError"
  | .attributeError _ => "AttributeError"
  | .requestsTimeout _ => "Timeout"
  | .requestsConnectionError _ => "ConnectionError"
  | .requestException _ => "RequestException"
  | .otherExc typeName _ => typeName

/-- `str(e)`: for the SDK's own errors this is the `__str__` defined in
`exceptions.py` (`[Code c] message`); for the library exceptions it is
the carried text (approximating the stdlib renderings of `Fault` and
`ProtocolError` with their documented shapes). -/
def PyExc.pyStr : PyExc → String
  | .rpcError m c _ => "[Code " ++ c.render ++ "] " ++ m.render
  | .apiError m c _ => "[Code " ++ c.render ++ "] " ++ m.render
  | .fault c s => "<Fault " ++ toString c ++ ": " ++ Json.reprStr (.str s) ++ ">"
  | .protocolError u c m => "<ProtocolError for " ++ u ++ ": " ++ toString c ++ " " ++ m ++ ">"
  | .timeoutError t => t
  | .connectionRefused t => t
  | .remoteDisconnected t => t
  | .osError t => t
  | .jsonDecodeError t => t
  | .attributeError t => t
  | .requestsTimeout t => t
  | .requestsConnectionError t => t
  | .requestException t => t
  | .otherExc _ t => t

/-- `e.faultCode` of an `xmlrpc.client.Fault` (junk elsewhere; the
handlers read it only under an `isinstance` guard for `Fault`). -/
def PyExc.excFaultCode : PyExc → Int
  | .fault c _ => c
  | _ => 0

/-- `e.faultString` of an `xmlrpc.client.Fault` (junk elsewhere). -/
def PyExc.excFaultString : PyExc → String
  | .fault _ s => s
  | _ => ""

/-- `e.url` of an `xmlrpc.client.ProtocolError` (junk elsewhere). -/
def PyExc.excUrl : PyExc → String
  | .protocolError u _ _ => u
  | _ => ""

/-- `e.errcode` of an `xmlrpc.client.ProtocolError` (junk elsewhere). -/
def PyExc.excErrcode : PyExc → Int
  | .protocolError _ c _ => c
  | _ => 0

/-- `e.errmsg` of an `xmlrpc.client.ProtocolError` (junk elsewhere). -/
def PyExc.excErrmsg : PyExc → String
  | .protocolError _ _ m => m
  | _ => ""

/-- A raw response body: its text and the outcome of `json.loads` on it
(the error side carries the `JSONDecodeError`'s text). -/
structure Body where
  text : String
  parsed : Except String Json

/-- Python dict `.get(key, default)`, raising `AttributeError` when the
receiver is not a dict. -/
def Json.dictGet (j : Json) (key : String) (default : Json) : Except PyExc Json :=
  match j with
  | .obj entries => .ok ((entries.lookup key).getD default)
  | _ => .error (.attributeError (noAttrMsg j "get"))

/-! ## The RPC result (`rpc_result.py`) -/

/-- `AdapterHubRpcResult`: wraps the raw response string and its parsed
JSON document (`_raw_result` / `_json_result`). -/
structure AdapterHubRpcResult where
  rawResult : String
  jsonResult : Json

/-- `AdapterHubRpcResult.__init__`: stores the raw string and
`json.loads` it; a decode failure raises `json.JSONDecodeError`. -/
def AdapterHubRpcResult.init (result : Body) : Except PyExc AdapterHubRpcResult :=
  match result.parsed with
  | .error msg => .error (.jsonDecodeError msg)
  | .ok j => .ok ⟨result.text, j⟩

/-- `AdapterHubRpcResult.code`: `self._json_result.get("code", -1)`. -/
def AdapterHubRpcResult.code (r : AdapterHubRpcResult) : Except PyExc Json :=
  r.jsonResult.dictGet "code" (.num (-1))

/-- `AdapterHubRpcResult.message`: `self._json_result.get("message", "Unknown error")`. -/
def AdapterHubRpcResult.message (r : AdapterHubRpcResult) : Except PyExc Json :=
  r.jsonResult.dictGet "message" (.str "Unknown error")

/-- `AdapterHubRpcResult.data`: `self._json_result.get("data")`. -/
def AdapterHubRpcResult.data (r : AdapterHubRpcResult) : Except PyExc Json :=
  r.jsonResult.dictGet "data" .null

/-- `AdapterHubRpcResult.error`: `self._json_result.get("error", True)`. -/
def AdapterHubRpcResult.error (r : AdapterHubRpcResult) : Except PyExc Json :=
  r.jsonResult.dictGet "error" (.bool true)

/-- `AdapterHubRpcResult.is_success`: `self.code == 200 and not self.error`
(short-circuit `and`, Python truthiness on the `error` value). -/
def AdapterHubRpcResult.is_success (r : AdapterHubRpcResult) : Except PyExc Bool :=
  match r.code with
  | .error e => .error e
  | .ok c =>
    if c.pyEqNum 200 then
      match r.error with
      | .error e => .error e
      | .ok v => .ok (!v.truthy)
    else .ok false

/-- `AdapterHubRpcResult.to_dict`: `self._json_result.copy()` — dicts and
lists have `.copy`, other Python values raise `AttributeError`. -/
def AdapterHubRpcResult.to_dict (r : AdapterHubRpcResult) : Except PyExc Json :=
  match r.jsonResult with
  | .obj entries => .ok (.obj entries)
  | .arr elems => .ok (.arr elems)
  | j => .error (.attributeError (noAttrMsg j "copy"))

/-! ## The RPC client (`rpc_client.py`) -/

/-- The outcome of the underlying `ServerProxy` method call: a delivered
response string (with its decode outcome) or a raised exception. -/
inductive CallOutcome where
  | ok (response : Body)
  | exc (e : PyExc)

/-- `AdapterHubRpcClient._parse_response`: builds the result and raises
`AdapterHubRpcError(message=result.message, code=result.code,
data=result.data)` unless `result.is_success`; any exception of a step
propagates (keyword arguments evaluate left to right). -/
def AdapterHubRpcClient.parse_response (response : Body) : Except PyExc AdapterHubRpcResult :=
  match AdapterHubRpcResult.init response with
  | .error e => .error e
  | .ok result =>
    match result.is_success with
    | .error e => .error e
    | .ok true => .ok result
    | .ok false =>
      match result.message with
      | .error e => .error e
      | .ok m =>
        match result.code with
        | .error e => .error e
        | .ok c =>
          match result.data with
          | .error e => .error e
          | .ok d => .error (.rpcError m c d)

/-- The `except` chain of `AdapterHubRpcClient._call_rpc`, in source
order: `AdapterHubRpcError` re-raised verbatim; `Fault`;
`ProtocolError` → -1000; `TimeoutError` → -1002 (before the `OSError`
family, of which it is a subclass); `(ConnectionRefusedError,
RemoteDisconnected, SocketError, OSError)` → -1001;
`json.JSONDecodeError` → -1003; any other `Exception` → -1999. -/
def AdapterHubRpcClient.handleExc (rpcUrl : String) (e : PyExc) : PyExc :=
  if isinstance e .adapterHubRpcError then e
  else if isinstance e .xmlrpcFault then
    .rpcError (.str ("RPC 服务端错误: " ++ e.excFaultString)) (.num e.excFaultCode) .null
  else if isinstance e .xmlrpcProtocolError then
    .rpcError (.str ("RPC 协议错误: " ++ toString e.excErrcode ++ " " ++ e.excErrmsg))
      (.num (-1000))
      (.obj [("url", .str e.excUrl), ("errcode", .num e.excErrcode),
             ("errmsg", .str e.excErrmsg)])
  else if isinstance e .timeoutError then
    .rpcError (.str ("RPC 连接超时: " ++ rpcUrl)) (.num (-1002))
      (.obj [("url", .str rpcUrl), ("error", .str e.pyStr)])
  else if isinstance e .connectionRefusedError || isinstance e .remoteDisconnected
      || isinstance e .socketError || isinstance e .osError then
    .rpcError (.str ("RPC 连接失败: 无法连接到服务器 " ++ rpcUrl ++ " - " ++ e.pyStr))
      (.num (-1001))
      (.obj [("url", .str rpcUrl), ("error", .str e.pyStr)])
  else if isinstance e .jsonDecodeError then
    .rpcError (.str "RPC 响应解析失败: 服务端返回的不是有效的 JSON 格式") (.num (-1003))
      (.obj [("error", .str e.pyStr)])
  else
    .rpcError (.str ("RPC 调用异常: " ++ e.pyTypeName ++ " - " ++ e.pyStr)) (.num (-1999))
      (.obj [("error_type", .str e.pyTypeName), ("error", .str e.pyStr)])

/-- `AdapterHubRpcClient._call_rpc`: performs the remote call (its
outcome is the input), parses the response, and funnels every raised
exception through the `except` chain. -/
def AdapterHubRpcClient.call_rpc (rpcUrl : String) (outcome : CallOutcome) :
    Except PyExc AdapterHubRpcResult :=
  let attempt : Except PyExc AdapterHubRpcResult :=
    match outcome with
    | .ok response => AdapterHubRpcClient.parse_response response
    | .exc e => .error e
  match attempt with
  | .ok r => .ok r
  | .error e => .error (AdapterHubRpcClient.handleExc rpcUrl e)

/-- `AdapterHubRpcClient.topic_message`: forwards to
`self._call_rpc("topic_message", topic, data)`; `topic` and `data`
travel to the server and do not affect the client's handling of the
outcome. -/
def AdapterHubRpcClient.topic_message (rpcUrl : String) (topic : String) (data : Json)
    (outcome : CallOutcome) : Except PyExc AdapterHubRpcResult :=
  AdapterHubRpcClient.call_rpc rpcUrl outcome

/-! ## The API result (`api_result.py`) -/

/-- `AdapterHubApiResult`: wraps the raw response text, the HTTP status
code and the parsed JSON document. -/
structure AdapterHubApiResult where
  rawResult : String
  statusCode : Int
  jsonResult : Json

/-- `AdapterHubApiResult.__init__`: stores text and status code, then
`json.loads` the text. -/
def AdapterHubApiResult.init (response : Body) (statusCode : Int) :
    Except PyExc AdapterHubApiResult :=
  match response.parsed with
  | .error msg => .error (.jsonDecodeError msg)
  | .ok j => .ok ⟨response.text, statusCode, j⟩

/-- `AdapterHubApiResult.status`: `self._json_result.get("status", "error")`. -/
def AdapterHubApiResult.status (r : AdapterHubApiResult) : Except PyExc Json :=
  r.jsonResult.dictGet "status" (.str "error")

/-- `AdapterHubApiResult.message`: `self._json_result.get("message", "Unknown error")`. -/
def AdapterHubApiResult.message (r : AdapterHubApiResult) : Except PyExc Json :=
  r.jsonResult.dictGet "message" (.str "Unknown error")

/-- `AdapterHubApiResult.is_success`: `self._status_code == 200 and
self.status == "success"` (short-circuit `and`). -/
def AdapterHubApiResult.is_success (r : AdapterHubApiResult) : Except PyExc Bool :=
  if r.statusCode == 200 then
    match r.status with
    | .error e => .error e
    | .ok s => .ok (s.pyEqStr "success")
  else .ok false

/-- `AdapterHubApiResult.to_dict`: `self._json_result.copy()`. -/
def AdapterHubApiResult.to_dict (r : AdapterHubApiResult) : Except PyExc Json :=
  match r.jsonResult with
  | .obj entries => .ok (.obj entries)
  | .arr elems => .ok (.arr elems)
  | j => .error (.attributeError (noAttrMsg j "copy"))

/-! ## The API client (`api_client.py`) -/

/-- `response.text[:500] if response.text else None`: the truncated
response snippet embedded in error data (None for an empty body). -/
def textSnippet (t : String) : Json :=
  if t.data.isEmpty then .null else .str ⟨t.data.take 500⟩

/-- Python `s.lstrip("/")`. -/
def lstripSlashes (s : String) : String :=
  ⟨s.data.dropWhile (fun c => c == '/')⟩

/-- Python `s.rstrip("/")`. -/
def rstripSlashes (s : String) : String :=
  ⟨(s.data.reverse.dropWhile (fun c => c == '/')).reverse⟩

/-- The configuration state of an `AdapterHubApiClient`. -/
structure AdapterHubApiClient where
  apiBaseUrl : String
  verifySsl : Bool := true
  timeout : Int := 30

/-- `AdapterHubApiClient.__init__`: stores
`api_base_url.rstrip("/")` and the two settings. -/
def AdapterHubApiClient.init (api_base_url : String) (verify_ssl : Bool := true)
    (timeout : Int := 30) : AdapterHubApiClient :=
  ⟨rstripSlashes api_base_url, verify_ssl, timeout⟩

/-- `AdapterHubApiClient._get_http_error_message`: the fixed
status→phrase dict, `.get(status_code, "Unknown Error")`. -/
def AdapterHubApiClient.getHttpErrorMessage (statusCode : Int) : String :=
  (([(400, "Bad Request"), (401, "Unauthorized"), (403, "Forbidden"),
     (404, "Not Found"), (405, "Method Not Allowed"), (408, "Request Timeout"),
     (500, "Internal Server Error"), (502, "Bad Gateway"),
     (503, "Service Unavailable"), (504, "Gateway Timeout")] :
     List (Int × String)).lookup statusCode).getD "Unknown Error"

/-- `AdapterHubApiClient._parse_response`: builds the result (catching
only `json.JSONDecodeError`, converted to the -1003 error with a
truncated snippet), then raises
`AdapterHubApiError(message=result.message, code=result.status_code,
data=result.to_dict())` unless `result.is_success`; other exceptions of
any step propagate. -/
def AdapterHubApiClient.parse_response (status : Int) (body : Body) :
    Except PyExc AdapterHubApiResult :=
  match AdapterHubApiResult.init body status with
  | .error e =>
    if isinstance e .jsonDecodeError then
      .error (.apiError (.str "API 响应解析失败: 服务端返回的不是有效的 JSON 格式")
        (.num (-1003))
        (.obj [("error", .str e.pyStr), ("response_text", textSnippet body.text)]))
    else .error e
  | .ok result =>
    match result.is_success with
    | .error e => .error e
    | .ok true => .ok result
    | .ok false =>
      match result.message with
      | .error e => .error e
      | .ok m =>
        match result.to_dict with
        | .error e => .error e
        | .ok d => .error (.apiError m (.num result.statusCode) d)

/-- The outcome of `self._session.post(...)`: a delivered response
(status code and body) or a raised exception. -/
inductive HttpOutcome where
  | response (statusCode : Int) (body : Body)
  | exc (e : PyExc)

/-- The `except` chain of `AdapterHubApiClient.send_request`, in source
order: `AdapterHubApiError` re-raised verbatim; `requests.Timeout` →
-1002; `requests.ConnectionError` → -1001; `requests.RequestException`
→ -1000; any other `Exception` → -1999. -/
def AdapterHubApiClient.handleExc (url : String) (e : PyExc) : PyExc :=
  if isinstance e .adapterHubApiError then e
  else if isinstance e .requestsTimeout then
    .apiError (.str ("API 请求超时: " ++ url)) (.num (-1002))
      (.obj [("url", .str url), ("error", .str e.pyStr)])
  else if isinstance e .requestsConnectionError then
    .apiError (.str ("API 连接失败: 无法连接到服务器 " ++ url)) (.num (-1001))
      (.obj [("url", .str url), ("error", .str e.pyStr)])
  else if isinstance e .requestException then
    .apiError (.str ("API 请求异常: " ++ e.pyStr)) (.num (-1000))
      (.obj [("url", .str url), ("error", .str e.pyStr)])
  else
    .apiError (.str ("API 调用异常: " ++ e.pyTypeName ++ " - " ++ e.pyStr)) (.num (-1999))
      (.obj [("error_type", .str e.pyTypeName), ("error", .str e.pyStr)])

/-- `AdapterHubApiClient.send_request`: builds the URL from the stored
(already right-stripped) base and the left-stripped endpoint, posts (the
outcome is the input), raises at once on an HTTP status ≥ 400 without
touching the body's JSON, otherwise parses the response; every raised
exception funnels through the `except` chain. -/
def AdapterHubApiClient.send_request (client : AdapterHubApiClient) (endpoint : String)
    (outcome : HttpOutcome) : Except PyExc AdapterHubApiResult :=
  let url := client.apiBaseUrl ++ "/" ++ lstripSlashes endpoint
  let attempt : Except PyExc AdapterHubApiResult :=
    match outcome with
    | .exc e => .error e
    | .response status body =>
      if 400 ≤ status then
        .error (.apiError
          (.str ("HTTP 错误: " ++ toString status ++ " "
                 ++ AdapterHubApiClient.getHttpErrorMessage status))
          (.num status)
          (.obj [("url", .str url), ("status_code", .num status),
                 ("response_text", textSnippet body.text)]))
      else AdapterHubApiClient.parse_response status body
  match attempt with
  | .ok r => .ok r
  | .error e => .error (AdapterHubApiClient.handleExc url e)

/-! ## Shared lemmas -/

/-- Helper: a result returned by `_parse_response` (RPC) satisfied `is_success`. -/
theorem rpc_parse_ok_is_success (body : Body) (r : AdapterHubRpcResult)
    (h : AdapterHubRpcClient.parse_response body = .ok r) :
    r.is_success = .ok true := by
  unfold AdapterHubRpcClient.parse_response at h
  repeat' split at h
  all_goals simp_all

/-- Helper: a result returned by `_parse_response` (API) satisfied `is_success`. -/
theorem api_parse_ok_is_success (status : Int) (body : Body) (r : AdapterHubApiResult)
    (h : AdapterHubApiClient.parse_response status body = .ok r) :
    r.is_success = .ok true := by
  unfold AdapterHubApiClient.parse_response at h
  repeat' split at h
  all_goals simp_all

/-- Helper: the RPC `except` chain always produces an `AdapterHubRpcError`. -/
theorem rpc_handleExc_typed (url : String) (e : PyExc) :
    isinstance (AdapterHubRpcClient.handleExc url e) .adapterHubRpcError = true := by
  unfold AdapterHubRpcClient.handleExc
  repeat' split
  all_goals first | assumption | rfl

/-- Helper: the API `except` chain always produces an `AdapterHubApiError`. -/
theorem api_handleExc_typed (url : String) (e : PyExc) :
    isinstance (AdapterHubApiClient.handleExc url e) .adapterHubApiError = true := by
  unfold AdapterHubApiClient.handleExc
  repeat' split
  all_goals first | assumption | rfl

/-! ## The claims -/

/-- C1: every completed call on either client returns a Result whose
`is_success` is true or raises the client's own typed error; a Result
with `is_success = false` is never returned. -/
theorem calls_return_success_or_raise_typed_error :
    (∀ (rpcUrl topic : String) (d : Json) (outcome : CallOutcome),
      (∀ r, AdapterHubRpcClient.topic_message rpcUrl topic d outcome = .ok r →
        r.is_success = .ok true) ∧
      (∀ e, AdapterHubRpcClient.topic_message rpcUrl topic d outcome = .error e →
        isinstance e .adapterHubRpcError = true)) ∧
    (∀ (client : AdapterHubApiClient) (endpoint : String) (outcome : HttpOutcome),
      (∀ r, client.send_request endpoint outcome = .ok r → r.is_success = .ok true) ∧
      (∀ e, client.send_request endpoint outcome = .error e →
        isinstance e .adapterHubApiError = true)) := by
  constructor
  · intro rpcUrl topic d outcome
    unfold AdapterHubRpcClient.topic_message AdapterHubRpcClient.call_rpc
    constructor
    · intro r h
      cases outcome with
      | exc e => simp at h
      | ok body =>
        simp only at h
        cases hp : AdapterHubRpcClient.parse_response body with
        | error e => rw [hp] at h; simp at h
        | ok r2 =>
          rw [hp] at h
          simp only [Except.ok.injEq] at h
          subst h
          exact rpc_parse_ok_is_success body r2 hp
    · intro e h
      cases outcome with
      | exc e0 =>
        simp only [Except.error.injEq] at h
        subst h
        exact rpc_handleExc_typed rpcUrl e0
      | ok body =>
        simp only at h
        cases hp : AdapterHubRpcClient.parse_response body with
        | ok r2 => rw [hp] at h; simp at h
        | error e0 =>
          rw [hp] at h
          simp only [Except.error.injEq] at h
          subst h
          exact rpc_handleExc_typed rpcUrl e0
  · intro client endpoint outcome
    unfold AdapterHubApiClient.send_request
    constructor
    · intro r h
      cases outcome with
      | exc e => simp at h
      | response status body =>
        simp only at h
        by_cases h4 : 400 ≤ status
        · rw [if_pos h4] at h; simp at h
        · rw [if_neg h4] at h
          cases hp : AdapterHubApiClient.parse_response status body with
          | error e => rw [hp] at h; simp at h
          | ok r2 =>
            rw [hp] at h
            simp only [Except.ok.injEq] at h
            subst h
            exact api_parse_ok_is_success status body r2 hp
    · intro e h
      cases outcome with
      | exc e0 =>
        simp only [Except.error.injEq] at h
        subst h
        exact api_handleExc_typed _ e0
      | response status body =>
        simp only at h
        by_cases h4 : 400 ≤ status
        · rw [if_pos h4] at h
          simp only [Except.error.injEq] at h
          subst h
          exact api_handleExc_typed _ _
        · rw [if_neg h4] at h
          cases hp : AdapterHubApiClient.parse_response status body with
          | ok r2 => rw [hp] at h; simp at h
          | error e0 =>
            rw [hp] at h
            simp only [Except.error.injEq] at h
            subst h
            exact api_handleExc_typed _ e0

/-- C1 witness: at a concrete success body and a concrete 404 outcome. -/
theorem calls_return_success_or_raise_typed_error_witness :
    (AdapterHubRpcResult.mk "b" (.obj [("code", .num 200), ("error", .bool false)])).is_success
      = .ok true ∧
    ∃ e, AdapterHubApiClient.send_request (AdapterHubApiClient.init "http://h") "e"
        (.response 404 ⟨"x", .error "bad"⟩) = .error e ∧
      isinstance e .adapterHubApiError = true := by
  constructor
  · exact (calls_return_success_or_raise_typed_error.1 "u" "t" .null
      (.ok ⟨"b", .ok (.obj [("code", .num 200), ("error", .bool false)])⟩)).1 _ rfl
  · exact ⟨_, rfl, (calls_return_success_or_raise_typed_error.2
      (AdapterHubApiClient.init "http://h") "e" (.response 404 ⟨"x", .error "bad"⟩)).2 _ rfl⟩

/-- C2: a well-formed RPC response body — a JSON object with `code` 200
and `error` false — yields a Result with `is_success` true, returned by
`topic_message` without raising. -/
theorem rpc_success_body_returns_result
    (rpcUrl topic : String) (d : Json) (body : Body) (entries : List (String × Json))
    (hparse : body.parsed = .ok (.obj entries))
    (hcode : entries.lookup "code" = some (.num 200))
    (herr : entries.lookup "error" = some (.bool false)) :
    AdapterHubRpcClient.topic_message rpcUrl topic d (.ok body) =
      .ok ⟨body.text, .obj entries⟩ ∧
    (AdapterHubRpcResult.mk body.text (.obj entries)).is_success = .ok true := by
  have hsucc : (AdapterHubRpcResult.mk body.text (.obj entries)).is_success = .ok true := by
    unfold AdapterHubRpcResult.is_success AdapterHubRpcResult.code AdapterHubRpcResult.error
      Json.dictGet
    simp [hcode, herr, Json.pyEqNum, Json.truthy]
  refine ⟨?_, hsucc⟩
  unfold AdapterHubRpcClient.topic_message AdapterHubRpcClient.call_rpc
    AdapterHubRpcClient.parse_response AdapterHubRpcResult.init
  simp only [hparse, hsucc]

/-- C2 witness: the documented success body. -/
theorem rpc_success_body_returns_result_witness :
    AdapterHubRpcClient.topic_message "http://localhost:8080/rpc" "sensor/data" (.num 1)
      (.ok ⟨"ok", .ok (.obj [("code", .num 200), ("message", .str "ok"),
                             ("data", .null), ("error", .bool false)])⟩) =
      .ok ⟨"ok", .obj [("code", .num 200), ("message", .str "ok"),
                       ("data", .null), ("error", .bool false)]⟩ :=
  (rpc_success_body_returns_result "http://localhost:8080/rpc" "sensor/data" (.num 1)
    ⟨"ok", .ok (.obj [("code", .num 200), ("message", .str "ok"),
                      ("data", .null), ("error", .bool false)])⟩
    _ rfl rfl rfl).1

/-- C3: a well-formed RPC response body with `code ≠ 200` or
`error = true` makes `topic_message` raise an `AdapterHubRpcError`
carrying the body's own `code` and `message` (and `data`), and the outer
transport-fault handler re-raises that error verbatim. -/
theorem rpc_failure_body_raises
    (rpcUrl topic : String) (d : Json) (body : Body) (entries : List (String × Json))
    (c : Int) (m : Json)
    (hparse : body.parsed = .ok (.obj entries))
    (hcode : entries.lookup "code" = some (.num c))
    (hmsg : entries.lookup "message" = some m)
    (hfail : c ≠ 200 ∨ entries.lookup "error" = some (.bool true)) :
    AdapterHubRpcClient.topic_message rpcUrl topic d (.ok body) =
      .error (.rpcError m (.num c) ((entries.lookup "data").getD .null)) ∧
    AdapterHubRpcClient.handleExc rpcUrl
        (.rpcError m (.num c) ((entries.lookup "data").getD .null)) =
      .rpcError m (.num c) ((entries.lookup "data").getD .null) := by
  have hpass : AdapterHubRpcClient.handleExc rpcUrl
      (.rpcError m (.num c) ((entries.lookup "data").getD .null)) =
      .rpcError m (.num c) ((entries.lookup "data").getD .null) := rfl
  refine ⟨?_, hpass⟩
  have hfalse : (AdapterHubRpcResult.mk body.text (.obj entries)).is_success = .ok false := by
    unfold AdapterHubRpcResult.is_success AdapterHubRpcResult.code AdapterHubRpcResult.error
      Json.dictGet
    by_cases hc : c = 200
    · subst hc
      rcases hfail with hc' | herr
      · exact absurd rfl hc'
      · simp [hcode, herr, Json.pyEqNum, Json.truthy]
    · simp [hcode, Json.pyEqNum, hc]
  unfold AdapterHubRpcClient.topic_message AdapterHubRpcClient.call_rpc
    AdapterHubRpcClient.parse_response AdapterHubRpcResult.init
  simp only [hparse, hfalse]
  unfold AdapterHubRpcResult.message AdapterHubRpcResult.code AdapterHubRpcResult.data
    Json.dictGet
  simp [hmsg, hcode, hpass]

/-- C3 witness: a concrete failure body (`code` 404, `error` true). -/
theorem rpc_failure_body_raises_witness :
    AdapterHubRpcClient.topic_message "u" "t" .null
      (.ok ⟨"b", .ok (.obj [("code", .num 404), ("message", .str "no adapter"),
                            ("error", .bool true)])⟩) =
      .error (.rpcError (.str "no adapter") (.num 404) .null) :=
  (rpc_failure_body_raises "u" "t" .null
    ⟨"b", .ok (.obj [("code", .num 404), ("message", .str "no adapter"),
                     ("error", .bool true)])⟩
    _ 404 (.str "no adapter") rfl rfl rfl (.inl (by decide))).1

/-- Helper: `send_request` on an HTTP status ≥ 400 raises the
`HTTP 错误` error with the status as code, the canned phrase, and the
URL/status/snippet data, whatever the body's JSON parse outcome. -/
theorem send_request_http_error_eq
    (client : AdapterHubApiClient) (endpoint : String) (status : Int) (body : Body)
    (h400 : 400 ≤ status) :
    client.send_request endpoint (.response status body) =
      .error (.apiError
        (.str ("HTTP 错误: " ++ toString status ++ " "
               ++ AdapterHubApiClient.getHttpErrorMessage status))
        (.num status)
        (.obj [("url", .str (client.apiBaseUrl ++ "/" ++ lstripSlashes endpoint)),
               ("status_code", .num status),
               ("response_text", textSnippet body.text)])) := by
  unfold AdapterHubApiClient.send_request
  simp only [if_pos h400]
  rfl

/-- C4: an HTTP status ≥ 400 makes `send_request` raise before any JSON
parsing of the body (the error does not depend on the parse outcome),
with code equal to the status, a message naming the status and the
phrase of the fixed table (unknown codes → "Unknown Error"), and data
holding the URL, the status and at most the first 500 characters of the
body. -/
theorem http_error_status_raises
    (client : AdapterHubApiClient) (endpoint : String) (status : Int) (body : Body)
    (h400 : 400 ≤ status) :
    client.send_request endpoint (.response status body) =
      .error (.apiError
        (.str ("HTTP 错误: " ++ toString status ++ " "
               ++ AdapterHubApiClient.getHttpErrorMessage status))
        (.num status)
        (.obj [("url", .str (client.apiBaseUrl ++ "/" ++ lstripSlashes endpoint)),
               ("status_code", .num status),
               ("response_text", textSnippet body.text)])) ∧
    (∀ parsed2 : Except String Json,
      client.send_request endpoint (.response status ⟨body.text, parsed2⟩) =
        client.send_request endpoint (.response status body)) ∧
    (textSnippet body.text = .null ∨
      textSnippet body.text = .str ⟨body.text.data.take 500⟩ ∧
        (String.mk (body.text.data.take 500)).length ≤ 500) ∧
    AdapterHubApiClient.getHttpErrorMessage 400 = "Bad Request" ∧
    AdapterHubApiClient.getHttpErrorMessage 401 = "Unauthorized" ∧
    AdapterHubApiClient.getHttpErrorMessage 403 = "Forbidden" ∧
    AdapterHubApiClient.getHttpErrorMessage 404 = "Not Found" ∧
    AdapterHubApiClient.getHttpErrorMessage 405 = "Method Not Allowed" ∧
    AdapterHubApiClient.getHttpErrorMessage 408 = "Request Timeout" ∧
    AdapterHubApiClient.getHttpErrorMessage 500 = "Internal Server Error" ∧
    AdapterHubApiClient.getHttpErrorMessage 502 = "Bad Gateway" ∧
    AdapterHubApiClient.getHttpErrorMessage 503 = "Service Unavailable" ∧
    AdapterHubApiClient.getHttpErrorMessage 504 = "Gateway Timeout" ∧
    (∀ s : Int, s ∉ ([400, 401, 403, 404, 405, 408, 500, 502, 503, 504] : List Int) →
      AdapterHubApiClient.getHttpErrorMessage s = "Unknown Error") := by
  refine ⟨send_request_http_error_eq client endpoint status body h400, ?_, ?_,
    rfl, rfl, rfl, rfl, rfl, rfl, rfl, rfl, rfl, rfl, ?_⟩
  · intro parsed2
    rw [send_request_http_error_eq client endpoint status body h400,
      send_request_http_error_eq client endpoint status ⟨body.text, parsed2⟩ h400]
  · by_cases he : body.text.data.isEmpty
    · left
      unfold textSnippet
      rw [if_pos he]
    · right
      constructor
      · unfold textSnippet
        rw [if_neg he]
      · show (body.text.data.take 500).length ≤ 500
        rw [List.length_take]
        exact min_le_left _ _
  · intro s hs
    simp only [List.mem_cons, List.not_mem_nil, or_false, not_or] at hs
    obtain ⟨h1, h2, h3, h4, h5, h6, h7, h8, h9, h10⟩ := hs
    unfold AdapterHubApiClient.getHttpErrorMessage
    simp [List.lookup, beq_eq_false_iff_ne.mpr h1, beq_eq_false_iff_ne.mpr h2,
      beq_eq_false_iff_ne.mpr h3, beq_eq_false_iff_ne.mpr h4, beq_eq_false_iff_ne.mpr h5,
      beq_eq_false_iff_ne.mpr h6, beq_eq_false_iff_ne.mpr h7, beq_eq_false_iff_ne.mpr h8,
      beq_eq_false_iff_ne.mpr h9, beq_eq_false_iff_ne.mpr h10]

/-- C4 witness: a 404 with a concrete body. -/
theorem http_error_status_raises_witness :
    AdapterHubApiClient.send_request (AdapterHubApiClient.init "http://h/api") "/sensor/data"
      (.response 404 ⟨"oops", .error "bad"⟩) =
      .error (.apiError (.str "HTTP 错误: 404 Not Found") (.num 404)
        (.obj [("url", .str "http://h/api/sensor/data"), ("status_code", .num 404),
               ("response_text", .str "oops")])) := by
  have h := (http_error_status_raises (AdapterHubApiClient.init "http://h/api") "/sensor/data"
    404 ⟨"oops", .error "bad"⟩ (by decide)).1
  simpa using h

/-- C5 counterexample: a remote-side `Fault` with fault code 300 is
classified with error code 300 — a positive, input-dependent code, so
the remote-fault category neither maps to one fixed code nor to a
negative one — and the raised message "RPC 服务端错误: boom" does not
embed the fault's own code. -/
theorem rpc_fault_classification_counterexample :
    AdapterHubRpcClient.call_rpc "u" (.exc (.fault 300 "boom")) =
      .error (.rpcError (.str "RPC 服务端错误: boom") (.num 300) .null) ∧
    AdapterHubRpcClient.call_rpc "u" (.exc (.fault 301 "boom")) =
      .error (.rpcError (.str "RPC 服务端错误: boom") (.num 301) .null) ∧
    ¬ ((300 : Int) < 0) ∧
    ¬ ("300".data <:+: "RPC 服务端错误: boom".data) := by
  refine ⟨rfl, rfl, by decide, by decide⟩

/-- C5 amended: the transport categories protocol fault (-1000), timeout
(-1002), connection failure (-1001), JSON parse failure (-1003) and
catch-all (-1999) each map to exactly one fixed negative code, checked
in that priority order after the verbatim re-raise of business errors
and the remote-fault clause; a remote-side fault is classified first
with the fault's own code (not a fixed negative one) and a message
embedding the fault's text. A timeout, though an `OSError`, is taken by
the earlier timeout clause, witnessing the priority order. -/
theorem rpc_fault_classification (rpcUrl : String) :
    (∀ m c d, AdapterHubRpcClient.handleExc rpcUrl (.rpcError m c d) = .rpcError m c d) ∧
    (∀ fc fs, AdapterHubRpcClient.call_rpc rpcUrl (.exc (.fault fc fs)) =
      .error (.rpcError (.str ("RPC 服务端错误: " ++ fs)) (.num fc) .null) ∧
      fs.data <:+: ("RPC 服务端错误: " ++ fs).data) ∧
    (∀ u ec em, AdapterHubRpcClient.call_rpc rpcUrl (.exc (.protocolError u ec em)) =
      .error (.rpcError (.str ("RPC 协议错误: " ++ toString ec ++ " " ++ em)) (.num (-1000))
        (.obj [("url", .str u), ("errcode", .num ec), ("errmsg", .str em)]))) ∧
    (∀ t, (AdapterHubRpcClient.call_rpc rpcUrl (.exc (.timeoutError t)) =
      .error (.rpcError (.str ("RPC 连接超时: " ++ rpcUrl)) (.num (-1002))
        (.obj [("url", .str rpcUrl), ("error", .str t)]))) ∧
      isinstance (.timeoutError t) .osError = true) ∧
    (∀ t, AdapterHubRpcClient.call_rpc rpcUrl (.exc (.connectionRefused t)) =
      .error (.rpcError
        (.str ("RPC 连接失败: 无法连接到服务器 " ++ rpcUrl ++ " - " ++ t)) (.num (-1001))
        (.obj [("url", .str rpcUrl), ("error", .str t)]))) ∧
    (∀ t, AdapterHubRpcClient.call_rpc rpcUrl (.exc (.remoteDisconnected t)) =
      .error (.rpcError
        (.str ("RPC 连接失败: 无法连接到服务器 " ++ rpcUrl ++ " - " ++ t)) (.num (-1001))
        (.obj [("url", .str rpcUrl), ("error", .str t)]))) ∧
    (∀ t, AdapterHubRpcClient.call_rpc rpcUrl (.exc (.osError t)) =
      .error (.rpcError
        (.str ("RPC 连接失败: 无法连接到服务器 " ++ rpcUrl ++ " - " ++ t)) (.num (-1001))
        (.obj [("url", .str rpcUrl), ("error", .str t)]))) ∧
    (∀ t, AdapterHubRpcClient.call_rpc rpcUrl (.exc (.jsonDecodeError t)) =
      .error (.rpcError (.str "RPC 响应解析失败: 服务端返回的不是有效的 JSON 格式")
        (.num (-1003)) (.obj [("error", .str t)]))) ∧
    (∀ n t, AdapterHubRpcClient.call_rpc rpcUrl (.exc (.otherExc n t)) =
      .error (.rpcError (.str ("RPC 调用异常: " ++ n ++ " - " ++ t)) (.num (-1999))
        (.obj [("error_type", .str n), ("error", .str t)]))) ∧
    ((-1000 : Int) < 0 ∧ (-1001 : Int) < 0 ∧ (-1002 : Int) < 0 ∧
      (-1003 : Int) < 0 ∧ (-1999 : Int) < 0) := by
  refine ⟨fun m c d => rfl, fun fc fs => ⟨rfl, ?_⟩, fun u ec em => rfl,
    fun t => ⟨rfl, rfl⟩, fun t => rfl, fun t => rfl, fun t => rfl, fun t => rfl,
    fun n t => rfl, by decide, by decide, by decide, by decide, by decide⟩
  exact ⟨"RPC 服务端错误: ".data, [], by simp⟩

/-- C6: a body that is not valid JSON raises the typed error with the
parse-failure code -1003 on either transport — the `JSONDecodeError`
never escapes — and the HTTP variant's embedded snippet is the body
truncated to at most 500 characters (None when the body is empty). -/
theorem nonjson_body_raises_parse_failure
    (rpcUrl topic : String) (d : Json) (text decodeMsg : String)
    (client : AdapterHubApiClient) (endpoint : String) (status : Int)
    (hstatus : status < 400) :
    AdapterHubRpcClient.topic_message rpcUrl topic d (.ok ⟨text, .error decodeMsg⟩) =
      .error (.rpcError (.str "RPC 响应解析失败: 服务端返回的不是有效的 JSON 格式")
        (.num (-1003)) (.obj [("error", .str decodeMsg)])) ∧
    client.send_request endpoint (.response status ⟨text, .error decodeMsg⟩) =
      .error (.apiError (.str "API 响应解析失败: 服务端返回的不是有效的 JSON 格式")
        (.num (-1003))
        (.obj [("error", .str decodeMsg), ("response_text", textSnippet text)])) ∧
    (textSnippet text = .null ∨
      textSnippet text = .str ⟨text.data.take 500⟩ ∧
        (String.mk (text.data.take 500)).length ≤ 500) := by
  refine ⟨rfl, ?_, ?_⟩
  · unfold AdapterHubApiClient.send_request
    simp only [if_neg (not_le.mpr hstatus)]
    rfl
  · by_cases he : text.data.isEmpty
    · left; unfold textSnippet; rw [if_pos he]
    · right
      refine ⟨by unfold textSnippet; rw [if_neg he], ?_⟩
      show (text.data.take 500).length ≤ 500
      rw [List.length_take]
      exact min_le_left _ _

/-- C6 witness: a concrete malformed body on both transports. -/
theorem nonjson_body_raises_parse_failure_witness :
    AdapterHubRpcClient.topic_message "u" "t" .null
      (.ok ⟨"<html>", .error "Expecting value"⟩) =
      .error (.rpcError (.str "RPC 响应解析失败: 服务端返回的不是有效的 JSON 格式")
        (.num (-1003)) (.obj [("error", .str "Expecting value")])) ∧
    AdapterHubApiClient.send_request (AdapterHubApiClient.init "http://h") "e"
      (.response 200 ⟨"<html>", .error "Expecting value"⟩) =
      .error (.apiError (.str "API 响应解析失败: 服务端返回的不是有效的 JSON 格式")
        (.num (-1003))
        (.obj [("error", .str "Expecting value"), ("response_text", .str "<html>")])) := by
  have h := nonjson_body_raises_parse_failure "u" "t" .null "<html>" "Expecting value"
    (AdapterHubApiClient.init "http://h") "e" 200 (by decide)
  exact ⟨h.1, h.2.1⟩

/-- C7: `send_request` joins the stored base URL (right-stripped of
slashes at construction) and the left-stripped endpoint with exactly one
slash, as the URL placed in the error data shows; for base
"http://h/api" and endpoint "/sensor/data" the URL is exactly
"http://h/api/sensor/data". -/
theorem send_request_url_building :
    (∀ (base endpoint : String) (status : Int) (body : Body) (m c dta : Json),
      400 ≤ status →
      AdapterHubApiClient.send_request (AdapterHubApiClient.init base) endpoint
        (.response status body) = .error (.apiError m c dta) →
      ∃ rest, dta = .obj (("url",
        .str (rstripSlashes base ++ "/" ++ lstripSlashes endpoint)) :: rest)) ∧
    rstripSlashes "http://h/api" ++ "/" ++ lstripSlashes "/sensor/data"
      = "http://h/api/sensor/data" ∧
    (AdapterHubApiClient.init "http://h/api").apiBaseUrl ++ "/" ++ lstripSlashes "/sensor/data"
      = "http://h/api/sensor/data" := by
  refine ⟨?_, rfl, rfl⟩
  intro base endpoint status body m c dta h400 heq
  rw [send_request_http_error_eq (AdapterHubApiClient.init base) endpoint status body h400]
    at heq
  simp only [Except.error.injEq, PyExc.apiError.injEq] at heq
  exact ⟨_, heq.2.2.symm⟩

/-- C7 witness: the scenario at base "http://h/api", endpoint
"/sensor/data", status 404. -/
theorem send_request_url_building_witness :
    ∃ rest, (Json.obj [("url", .str "http://h/api/sensor/data"), ("status_code", .num 404),
        ("response_text", .null)]) =
      .obj (("url", .str (rstripSlashes "http://h/api" ++ "/"
        ++ lstripSlashes "/sensor/data")) :: rest) :=
  send_request_url_building.1 "http://h/api" "/sensor/data" 404 ⟨"", .error "x"⟩
    _ _ _ (by decide) rfl

/-- C8: for a Result of either variant built from a valid JSON object
body, `to_dict` yields exactly the parsed content of the original
response body, so re-serializing it is JSON-content-equal to that
body. -/
theorem to_dict_round_trips
    (body : Body) (entries : List (String × Json)) (status : Int)
    (hparse : body.parsed = .ok (.obj entries)) :
    AdapterHubRpcResult.init body = .ok ⟨body.text, .obj entries⟩ ∧
    (AdapterHubRpcResult.mk body.text (.obj entries)).to_dict = .ok (.obj entries) ∧
    AdapterHubApiResult.init body status = .ok ⟨body.text, status, .obj entries⟩ ∧
    (AdapterHubApiResult.mk body.text status (.obj entries)).to_dict = .ok (.obj entries) ∧
    Except.ok ((AdapterHubRpcResult.mk body.text (.obj entries)).jsonResult) = body.parsed := by
  refine ⟨?_, rfl, ?_, rfl, ?_⟩
  · unfold AdapterHubRpcResult.init; rw [hparse]
  · unfold AdapterHubApiResult.init; rw [hparse]
  · rw [hparse]

/-- C8 witness: a concrete object body. -/
theorem to_dict_round_trips_witness :
    (AdapterHubRpcResult.mk "b" (.obj [("code", .num 200)])).to_dict =
      .ok (.obj [("code", .num 200)]) ∧
    (AdapterHubApiResult.mk "b" 200 (.obj [("code", .num 200)])).to_dict =
      .ok (.obj [("code", .num 200)]) := by
  have h := to_dict_round_trips ⟨"b", .ok (.obj [("code", .num 200)])⟩
    [("code", .num 200)] 200 rfl
  exact ⟨h.2.1, h.2.2.2.1⟩

/-- Helper: `.get` on a parsed value that is not a JSON object raises
`AttributeError`. -/
theorem json_dictGet_not_obj (j : Json) (h : j.isObj = false) (key : String)
    (default : Json) :
    j.dictGet key default = .error (.attributeError (noAttrMsg j "get")) := by
  cases j <;> first | rfl | simp [Json.isObj] at h

/-- C9: missing response fields default to the failure side — `code` to
-1, `message` to "Unknown error", `error` to True, `status` to "error" —
so a body missing `code` or `error` (RPC) or `status` (HTTP) is never
classified a success. -/
theorem missing_fields_default_to_failure
    (text : String) (status : Int) (entries : List (String × Json)) :
    (entries.lookup "code" = none →
      (AdapterHubRpcResult.mk text (.obj entries)).code = .ok (.num (-1)) ∧
      (AdapterHubRpcResult.mk text (.obj entries)).is_success = .ok false) ∧
    (entries.lookup "message" = none →
      (AdapterHubRpcResult.mk text (.obj entries)).message = .ok (.str "Unknown error")) ∧
    (entries.lookup "error" = none →
      (AdapterHubRpcResult.mk text (.obj entries)).error = .ok (.bool true) ∧
      (AdapterHubRpcResult.mk text (.obj entries)).is_success = .ok false) ∧
    (entries.lookup "status" = none →
      (AdapterHubApiResult.mk text status (.obj entries)).status = .ok (.str "error") ∧
      (AdapterHubApiResult.mk text status (.obj entries)).is_success = .ok false) := by
  refine ⟨?_, ?_, ?_, ?_⟩
  · intro hc
    constructor
    · unfold AdapterHubRpcResult.code Json.dictGet
      simp [hc]
    · unfold AdapterHubRpcResult.is_success AdapterHubRpcResult.code Json.dictGet
      simp [hc, Json.pyEqNum]
  · intro hm
    unfold AdapterHubRpcResult.message Json.dictGet
    simp [hm]
  · intro he
    have herr : (AdapterHubRpcResult.mk text (.obj entries)).error = .ok (.bool true) := by
      unfold AdapterHubRpcResult.error Json.dictGet
      simp [he]
    refine ⟨herr, ?_⟩
    unfold AdapterHubRpcResult.is_success AdapterHubRpcResult.code Json.dictGet
    simp only
    cases hcv : entries.lookup "code" with
    | none => simp [Json.pyEqNum]
    | some v =>
      simp only [Option.getD_some]
      rcases Bool.eq_false_or_eq_true (v.pyEqNum 200) with hpv | hpv
      · rw [if_pos hpv, herr]
        rfl
      · rw [if_neg (by simp [hpv])]
  · intro hs
    have hst : (AdapterHubApiResult.mk text status (.obj entries)).status = .ok (.str "error") := by
      unfold AdapterHubApiResult.status Json.dictGet
      simp [hs]
    refine ⟨hst, ?_⟩
    unfold AdapterHubApiResult.is_success
    by_cases h200 : status = 200
    · simp only [h200, beq_self_eq_true, if_true]
      rw [show (AdapterHubApiResult.mk text 200 (.obj entries)).status
        = Json.dictGet (.obj entries) "status" (.str "error") from rfl]
      rw [show (AdapterHubApiResult.mk text status (.obj entries)).status
        = Json.dictGet (.obj entries) "status" (.str "error") from rfl] at hst
      rw [hst]
      rfl
    · simp [beq_eq_false_iff_ne.mpr h200]

/-- C9 witness: the empty object body. -/
theorem missing_fields_default_to_failure_witness :
    (AdapterHubRpcResult.mk "b" (.obj [])).code = .ok (.num (-1)) ∧
    (AdapterHubRpcResult.mk "b" (.obj [])).message = .ok (.str "Unknown error") ∧
    (AdapterHubRpcResult.mk "b" (.obj [])).error = .ok (.bool true) ∧
    (AdapterHubRpcResult.mk "b" (.obj [])).is_success = .ok false ∧
    (AdapterHubApiResult.mk "b" 200 (.obj [])).status = .ok (.str "error") ∧
    (AdapterHubApiResult.mk "b" 200 (.obj [])).is_success = .ok false := by
  have h := missing_fields_default_to_failure "b" 200 []
  exact ⟨(h.1 rfl).1, h.2.1 rfl, (h.2.2.1 rfl).1, (h.1 rfl).2,
    (h.2.2.2 rfl).1, (h.2.2.2 rfl).2⟩

/-- C10: a body that is valid JSON but not an object constructs the
Result, then field access raises `AttributeError`, which both clients
classify as the catch-all -1999 error (message embedding the exception
kind and text), not as the parse-failure -1003. -/
theorem nonobject_body_catchall
    (rpcUrl topic : String) (d : Json) (text : String) (j : Json)
    (client : AdapterHubApiClient) (endpoint : String) (status : Int)
    (hnotobj : j.isObj = false) (hstatus : status < 400) :
    AdapterHubRpcResult.init ⟨text, .ok j⟩ = .ok ⟨text, j⟩ ∧
    AdapterHubApiResult.init ⟨text, .ok j⟩ status = .ok ⟨text, status, j⟩ ∧
    AdapterHubRpcClient.topic_message rpcUrl topic d (.ok ⟨text, .ok j⟩) =
      .error (.rpcError
        (.str ("RPC 调用异常: AttributeError - " ++ noAttrMsg j "get")) (.num (-1999))
        (.obj [("error_type", .str "AttributeError"),
               ("error", .str (noAttrMsg j "get"))])) ∧
    client.send_request endpoint (.response status ⟨text, .ok j⟩) =
      .error (.apiError
        (.str ("API 调用异常: AttributeError - " ++ noAttrMsg j "get")) (.num (-1999))
        (.obj [("error_type", .str "AttributeError"),
               ("error", .str (noAttrMsg j "get"))])) ∧
    (-1999 : Int) ≠ -1003 := by
  have hget : ∀ (key : String) (default : Json),
      j.dictGet key default = .error (.attributeError (noAttrMsg j "get")) :=
    fun k dflt => json_dictGet_not_obj j hnotobj k dflt
  refine ⟨rfl, rfl, ?_, ?_, by decide⟩
  · have hsucc : (AdapterHubRpcResult.mk text j).is_success =
        .error (.attributeError (noAttrMsg j "get")) := by
      unfold AdapterHubRpcResult.is_success AdapterHubRpcResult.code
      rw [hget]
    unfold AdapterHubRpcClient.topic_message AdapterHubRpcClient.call_rpc
      AdapterHubRpcClient.parse_response AdapterHubRpcResult.init
    simp only [hsucc]
    rfl
  · have hparse : AdapterHubApiClient.parse_response status ⟨text, .ok j⟩ =
        .error (.attributeError (noAttrMsg j "get")) := by
      unfold AdapterHubApiClient.parse_response AdapterHubApiResult.init
      by_cases h200 : status = 200
      · have hsucc : (AdapterHubApiResult.mk text status j).is_success =
            .error (.attributeError (noAttrMsg j "get")) := by
          unfold AdapterHubApiResult.is_success AdapterHubApiResult.status
          simp only [h200, beq_self_eq_true, if_true]
          rw [hget]
        simp only [hsucc]
      · have hsucc : (AdapterHubApiResult.mk text status j).is_success = .ok false := by
          unfold AdapterHubApiResult.is_success
          simp [beq_eq_false_iff_ne.mpr h200]
        have hmsg : (AdapterHubApiResult.mk text status j).message =
            .error (.attributeError (noAttrMsg j "get")) := by
          unfold AdapterHubApiResult.message
          rw [hget]
        simp only [hsucc, hmsg]
    unfold AdapterHubApiClient.send_request
    simp only [if_neg (not_le.mpr hstatus), hparse]
    rfl

/-- C10 witness: the body `5` (a JSON number) on both transports. -/
theorem nonobject_body_catchall_witness :
    AdapterHubRpcClient.topic_message "u" "t" .null (.ok ⟨"5", .ok (.num 5)⟩) =
      .error (.rpcError
        (.str "RPC 调用异常: AttributeError - 'int' object has no attribute 'get'")
        (.num (-1999))
        (.obj [("error_type", .str "AttributeError"),
               ("error", .str "'int' object has no attribute 'get'")])) ∧
    AdapterHubApiClient.send_request (AdapterHubApiClient.init "http://h") "e"
      (.response 200 ⟨"5", .ok (.num 5)⟩) =
      .error (.apiError
        (.str "API 调用异常: AttributeError - 'int' object has no attribute 'get'")
        (.num (-1999))
        (.obj [("error_type", .str "AttributeError"),
               ("error", .str "'int' object has no attribute 'get'")])) := by
  have h := nonobject_body_catchall "u" "t" .null "5" (.num 5)
    (AdapterHubApiClient.init "http://h") "e" 200 rfl (by decide)
  exact ⟨h.2.2.1, h.2.2.2.1⟩
